import Mathlib

/-!
Verification development for the Jazler database editor's reconciliation
engine (import parser / import classifier / import executor / audit
reconciler).  Python strings are modelled as lists of characters
(`Str`), Python `None`-able string arguments as `Option Str`, Python
floats that are only carried around (durations, confidences, positions)
as rationals, and Python ints as `Int`.  Database and filesystem effects
are modelled by explicit state passing; places where the real system can
raise are modelled with `Except` or with explicit fault oracles.
All definitions are translated from the source files under `src/`.
-/

namespace Jazler

/-- Python strings, modelled as lists of characters. -/
abbrev Str := List Char

/-- Python whitespace class used by `str.strip` and the regex `\s`
 (space, tab, newline, carriage return, vertical tab, form feed;
 character codes 32, 9, 10, 13, 11, 12). -/
def isSpace (c : Char) : Bool :=
  c.toNat = 32 || c.toNat = 9 || c.toNat = 10 || c.toNat = 13 ||
    c.toNat = 11 || c.toNat = 12

/-- ASCII lowering of one character, the behaviour of Python `str.lower`
 on the ASCII range (the repository's paths and tag names are ASCII). -/
def lowerChar (c : Char) : Char :=
  if 65 ≤ c.toNat ∧ c.toNat ≤ 90 then Char.ofNat (c.toNat + 32) else c

/-- Python `str.lower` (ASCII fragment). -/
def lowerStr (s : Str) : Str := s.map lowerChar

/-- Python `str.strip()`: drop leading and trailing whitespace. -/
def pyStrip (s : Str) : Str :=
  ((s.dropWhile isSpace).reverse.dropWhile isSpace).reverse

/-- Python `re.sub(r'\s+', ' ', s)`: replace every maximal run of
 whitespace by a single space. -/
def collapseWS : Str → Str
  | [] => []
  | c :: cs =>
    match cs with
    | [] => if isSpace c then [' '] else [c]
    | d :: _ =>
      if isSpace c && isSpace d then collapseWS cs
      else (if isSpace c then ' ' else c) :: collapseWS cs

/-- Python `s.replace('/', '\\')` (single-character replacement). -/
def replSlash (s : Str) : Str :=
  s.map fun c => if c = '/' then '\\' else c

/-- `ImportParser.normalize_for_comparison` from
 `src/services/import_parser.py`: falsy input (`None` or empty) maps to
 the empty string; otherwise strip, lowercase, collapse whitespace runs. -/
def normalize_for_comparison (text : Option Str) : Str :=
  match text with
  | none => []
  | some t => if t = [] then [] else collapseWS (lowerStr (pyStrip t))

/-- `ImportParser.normalize_path` from `src/services/import_parser.py`:
 falsy input maps to empty; otherwise lowercase, forward slashes to
 backslashes, strip. -/
def normalize_path (path : Option Str) : Str :=
  match path with
  | none => []
  | some p => if p = [] then [] else pyStrip (replSlash (lowerStr p))

/-- Python `s.split(sep)` for a single-character separator (used with
 `","` for genre strings). -/
def splitChar (sep : Char) : Str → List Str
  | [] => [[]]
  | c :: cs =>
    if c = sep then [] :: splitChar sep cs
    else
      match splitChar sep cs with
      | [] => [[c]]
      | t :: ts => (c :: t) :: ts

/-- Python `s.split(" - ")`: the parser's separator is the literal
 three-character string space-hyphen-space, scanned left to right. -/
def splitDash : Str → List Str
  | ' ' :: '-' :: ' ' :: rest => [] :: splitDash rest
  | c :: cs =>
    match splitDash cs with
    | [] => [[c]]
    | t :: ts => (c :: t) :: ts
  | [] => [[]]

/-- Python `" - ".join(parts)`. -/
def joinDash (parts : List Str) : Str :=
  List.intercalate [' ', '-', ' '] parts

/-- `os.path.basename` on Windows: the part after the last slash or
 backslash. -/
def basename (s : Str) : Str :=
  (s.reverse.takeWhile fun c => c ≠ '/' && c ≠ '\\').reverse

/-- The root part of `os.path.splitext`: cut at the last dot provided
 some earlier character of the name is not a dot (so purely leading dots
 never start an extension). -/
def splitextRoot (s : Str) : Str :=
  match s.reverse.dropWhile (fun c => c ≠ '.') with
  | [] => s
  | _ :: rs => if rs.any (fun c => c ≠ '.') then rs.reverse else s

/-- ASCII digit test (Python `str.isdigit` on the ASCII range). -/
def isDigitC (c : Char) : Bool := 48 ≤ c.toNat && c.toNat ≤ 57

/-- `ImportParser._is_track_number`: after stripping, either the regex
 `^\d{1,3}\.?\s*$` matches, or the text is all digits of length at most
 3. -/
def is_track_number (text : Str) : Bool :=
  let t := pyStrip text
  let ds := t.takeWhile isDigitC
  let rest := t.drop ds.length
  let regexOk :=
    1 ≤ ds.length && ds.length ≤ 3 &&
      (match rest with
       | [] => true
       | '.' :: rs => rs.all isSpace
       | _ => rest.all isSpace)
  regexOk || (!t.isEmpty && t.all isDigitC && t.length ≤ 3)

/-- Where parsed metadata came from (`ParseSource` enum). -/
inductive ParseSource where
  | id3
  | filename
  | fallback
deriving DecidableEq, Repr

/-- `ParsedMetadata` dataclass.  Confidence and duration are Python
 floats carried around unchanged; they are modelled as rationals. -/
structure ParsedMetadata where
  artist : Str
  title : Str
  album : Str := []
  year : Int := 0
  genre : Str := []
  duration : ℚ := 0
  composer : Str := []
  publisher : Str := []
  isrc : Str := []
  source : ParseSource := ParseSource.fallback
  confidence : ℚ := 0
deriving DecidableEq, Repr

/-- `ImportParser._parse_filename`: extract artist/title from a file
 name, splitting the cleaned, extension-free basename on `" - "`. -/
def parse_filename (fallback_artist fallback_title : Str) (filepath : Str) :
    ParsedMetadata :=
  let filename := basename filepath
  let name_without_ext := splitextRoot filename
  let name_clean := pyStrip (collapseWS name_without_ext)
  let parts := splitDash name_clean
  let res : Str × Str × ℚ :=
    if parts.length = 2 then
      (pyStrip (parts.getD 0 []), pyStrip (parts.getD 1 []), 7/10)
    else if 3 ≤ parts.length then
      if is_track_number (pyStrip (parts.getD 0 [])) then
        (pyStrip (parts.getD 1 []), pyStrip (joinDash (parts.drop 2)), 6/10)
      else
        (pyStrip (parts.getD 0 []), pyStrip (parts.getLast?.getD []), 5/10)
    else if parts.length = 1 then
      (fallback_artist, name_clean, 3/10)
    else
      (fallback_artist, fallback_title, 0)
  { artist := if res.1 = [] then fallback_artist else res.1
    title := if res.2.1 = [] then fallback_title else res.2.1
    source := ParseSource.filename
    confidence := res.2.2 }

/-- Import classification result (`ImportStatus` enum). -/
inductive ImportStatus where
  | new
  | duplicate
  | conflict
deriving DecidableEq, Repr

/-- Typed values of database cells, mirroring the Python values stored
 in row/payload dictionaries.  Numeric audio fields that are Python
 floats are modelled as rationals, so the diff's fuzzy float comparison
 is carried out exactly on rationals. -/
inductive Val where
  | s (v : Str)
  | i (v : Int)
  | q (v : ℚ)
  | b (v : Bool)
  | null
deriving DecidableEq, Repr

/-- A row of the `snDatabase` table with the columns the import and
 audit services read or write. -/
structure SongRow where
  auid : Int
  fldArtistCode : Int := 0
  fldArtistName : Str := []
  fldTitle : Str := []
  fldFilename : Str := []
  fldDuration : ℚ := 0
  fldAlbum : Str := []
  fldYear : Int := 0
  fldComposer : Str := []
  fldLabel : Str := []
  fldCDKey : Str := []
  fldCat1a : Int := 0
  fldCat1b : Int := 0
  fldCat1c : Int := 0
  fldCat2 : Int := 0
  fldCat3 : Int := 0
  fldEnabled : Bool := false
  fldEnabledAuto : Bool := false
  fldVocalPresent : Bool := false
  fldPriority : Int := 0
  fldIntroPos : ℚ := 0
  fldMixPos : ℚ := 0
  fldFadeDur : ℚ := 0
  fldFadePos : ℚ := 0
  fldStartPos : ℚ := 0
  fldFadeInDur : ℚ := 0
  fldVolume : Int := 0
  fldBroadcasts : Int := 0
  fldVoteCount : Int := 0
  fldNoRDS : Bool := false
  fldDoNotAutoAlter : Bool := false
deriving DecidableEq, Repr

/-- Dictionary view of a row (`row.get(column)` on a fetched record). -/
def rowGet (r : SongRow) (k : Str) : Option Val :=
  if k = "AUID".data then some (Val.i r.auid)
  else if k = "fldArtistCode".data then some (Val.i r.fldArtistCode)
  else if k = "fldArtistName".data then some (Val.s r.fldArtistName)
  else if k = "fldTitle".data then some (Val.s r.fldTitle)
  else if k = "fldFilename".data then some (Val.s r.fldFilename)
  else if k = "fldDuration".data then some (Val.q r.fldDuration)
  else if k = "fldAlbum".data then some (Val.s r.fldAlbum)
  else if k = "fldYear".data then some (Val.i r.fldYear)
  else if k = "fldComposer".data then some (Val.s r.fldComposer)
  else if k = "fldLabel".data then some (Val.s r.fldLabel)
  else if k = "fldCDKey".data then some (Val.s r.fldCDKey)
  else if k = "fldCat1a".data then some (Val.i r.fldCat1a)
  else if k = "fldCat1b".data then some (Val.i r.fldCat1b)
  else if k = "fldCat1c".data then some (Val.i r.fldCat1c)
  else if k = "fldCat2".data then some (Val.i r.fldCat2)
  else if k = "fldCat3".data then some (Val.i r.fldCat3)
  else if k = "fldEnabled".data then some (Val.b r.fldEnabled)
  else if k = "fldEnabledAuto".data then some (Val.b r.fldEnabledAuto)
  else if k = "fldVocalPresent".data then some (Val.b r.fldVocalPresent)
  else if k = "fldPriority".data then some (Val.i r.fldPriority)
  else if k = "fldIntroPos".data then some (Val.q r.fldIntroPos)
  else if k = "fldMixPos".data then some (Val.q r.fldMixPos)
  else if k = "fldFadeDur".data then some (Val.q r.fldFadeDur)
  else if k = "fldFadePos".data then some (Val.q r.fldFadePos)
  else if k = "fldStartPos".data then some (Val.q r.fldStartPos)
  else if k = "fldFadeInDur".data then some (Val.q r.fldFadeInDur)
  else if k = "fldVolume".data then some (Val.i r.fldVolume)
  else if k = "fldBroadcasts".data then some (Val.i r.fldBroadcasts)
  else if k = "fldVoteCount".data then some (Val.i r.fldVoteCount)
  else if k = "fldNoRDS".data then some (Val.b r.fldNoRDS)
  else if k = "fldDoNotAutoAlter".data then some (Val.b r.fldDoNotAutoAlter)
  else none

/-- Apply one `column = value` assignment of an SQL `UPDATE`/`INSERT`
 to a row.  Columns outside the modelled schema are ignored. -/
def setField (r : SongRow) (k : Str) (v : Val) : SongRow :=
  if k = "fldArtistCode".data then
    match v with | Val.i x => { r with fldArtistCode := x } | _ => r
  else if k = "fldArtistName".data then
    match v with | Val.s x => { r with fldArtistName := x } | _ => r
  else if k = "fldTitle".data then
    match v with | Val.s x => { r with fldTitle := x } | _ => r
  else if k = "fldFilename".data then
    match v with | Val.s x => { r with fldFilename := x } | _ => r
  else if k = "fldDuration".data then
    match v with | Val.q x => { r with fldDuration := x } | _ => r
  else if k = "fldAlbum".data then
    match v with | Val.s x => { r with fldAlbum := x } | _ => r
  else if k = "fldYear".data then
    match v with | Val.i x => { r with fldYear := x } | _ => r
  else if k = "fldComposer".data then
    match v with | Val.s x => { r with fldComposer := x } | _ => r
  else if k = "fldLabel".data then
    match v with | Val.s x => { r with fldLabel := x } | _ => r
  else if k = "fldCDKey".data then
    match v with | Val.s x => { r with fldCDKey := x } | _ => r
  else if k = "fldCat1a".data then
    match v with | Val.i x => { r with fldCat1a := x } | _ => r
  else if k = "fldCat1b".data then
    match v with | Val.i x => { r with fldCat1b := x } | _ => r
  else if k = "fldCat1c".data then
    match v with | Val.i x => { r with fldCat1c := x } | _ => r
  else if k = "fldCat2".data then
    match v with | Val.i x => { r with fldCat2 := x } | _ => r
  else if k = "fldCat3".data then
    match v with | Val.i x => { r with fldCat3 := x } | _ => r
  else if k = "fldEnabled".data then
    match v with | Val.b x => { r with fldEnabled := x } | _ => r
  else if k = "fldEnabledAuto".data then
    match v with | Val.b x => { r with fldEnabledAuto := x } | _ => r
  else if k = "fldVocalPresent".data then
    match v with | Val.b x => { r with fldVocalPresent := x } | _ => r
  else if k = "fldPriority".data then
    match v with | Val.i x => { r with fldPriority := x } | _ => r
  else if k = "fldIntroPos".data then
    match v with | Val.q x => { r with fldIntroPos := x } | _ => r
  else if k = "fldMixPos".data then
    match v with | Val.q x => { r with fldMixPos := x } | _ => r
  else if k = "fldFadeDur".data then
    match v with | Val.q x => { r with fldFadeDur := x } | _ => r
  else if k = "fldFadePos".data then
    match v with | Val.q x => { r with fldFadePos := x } | _ => r
  else if k = "fldStartPos".data then
    match v with | Val.q x => { r with fldStartPos := x } | _ => r
  else if k = "fldFadeInDur".data then
    match v with | Val.q x => { r with fldFadeInDur := x } | _ => r
  else if k = "fldVolume".data then
    match v with | Val.i x => { r with fldVolume := x } | _ => r
  else if k = "fldBroadcasts".data then
    match v with | Val.i x => { r with fldBroadcasts := x } | _ => r
  else if k = "fldVoteCount".data then
    match v with | Val.i x => { r with fldVoteCount := x } | _ => r
  else if k = "fldNoRDS".data then
    match v with | Val.b x => { r with fldNoRDS := x } | _ => r
  else if k = "fldDoNotAutoAlter".data then
    match v with | Val.b x => { r with fldDoNotAutoAlter := x } | _ => r
  else r

/-- Apply a field dictionary (an SQL `SET` list) to a row, first entry
 first. -/
def applyFields (r : SongRow) (fields : List (Str × Val)) : SongRow :=
  fields.foldl (fun acc kv => setField acc kv.1 kv.2) r

/-- Raw ID3 tag data as returned by `ImportParser._read_id3_tags`
 (an external mutagen read; the year is already parsed to an int by
 `_parse_year`).  `None` (unreadable file) is modelled by `Option`. -/
structure Id3Tags where
  artist : Str := []
  title : Str := []
  album : Str := []
  year : Int := 0
  genre : Str := []
  composer : Str := []
  publisher : Str := []
  duration : ℚ := 0
  isrc : Str := []
deriving DecidableEq, Repr

/-- `ImportParser._has_valid_id3`: tags carry a non-blank artist or a
 non-blank title. -/
def has_valid_id3 (tags : Id3Tags) : Bool :=
  !(pyStrip tags.artist).isEmpty || !(pyStrip tags.title).isEmpty

/-- `ImportParser._merge_metadata`: ID3 fields win, blank ID3
 artist/title fall back to the filename-derived values. -/
def merge_metadata (fallback_artist fallback_title : Str)
    (id3 : Id3Tags) (filename_meta : ParsedMetadata) : ParsedMetadata :=
  let artist0 := pyStrip id3.artist
  let title0 := pyStrip id3.title
  let artist := if artist0 = [] then filename_meta.artist else artist0
  let title := if title0 = [] then filename_meta.title else title0
  { artist := if artist = [] then fallback_artist else artist
    title := if title = [] then fallback_title else title
    album := pyStrip id3.album
    year := id3.year
    genre := pyStrip id3.genre
    duration := id3.duration
    composer := pyStrip id3.composer
    publisher := pyStrip id3.publisher
    isrc := pyStrip id3.isrc
    source := ParseSource.id3
    confidence := if artist ≠ [] ∧ title ≠ [] then 9/10 else 7/10 }

/-- One entry of the classifier's artist+title index
 (`_existing_artist_titles[key]`). -/
structure ExistEntry where
  id : Int
  path : Str
  full_record : SongRow
deriving DecidableEq, Repr

/-- `ImportCandidate` dataclass.  `user_decision` is the raw decision
 string; `existing_data`/`existing_diff` model the full conflicting
 record snapshot and the field-by-field diff attached for operator
 review. -/
structure ImportCandidate where
  file_path : Str
  metadata : ParsedMetadata
  status : ImportStatus := ImportStatus.new
  existing_song_id : Option Int := none
  existing_path : Option Str := none
  artist_id : Option Int := none
  artist_is_new : Bool := false
  genre_ids : List Int := [18, 0, 0]
  decade_id : Int := 0
  user_decision : Option Str := none
  existing_data : Option SongRow := none
  existing_diff : List (Str × Val × Option Val) := []
deriving DecidableEq, Repr

/-- `ImportResult` dataclass. -/
structure ImportResult where
  file_path : Str
  success : Bool
  song_id : Option Int := none
  artist_id : Option Int := none
  error : Option Str := none
  action : Str := []
deriving DecidableEq, Repr

/-- `ImportSummary` dataclass. -/
structure ImportSummary where
  total_files : Nat := 0
  successful : Nat := 0
  skipped : Nat := 0
  errors : Nat := 0
  new_artists_created : Nat := 0
  conflicts_resolved : Nat := 0
  results : List ImportResult := []
deriving DecidableEq, Repr

/-- `JazlerDefaults` dataclass (default field values for new records). -/
structure JazlerDefaults where
  fldEnabled : Bool := true
  fldEnabledAuto : Bool := true
  fldVocalPresent : Bool := false
  fldPriority : Int := 5
  fldIntroPos : ℚ := 0
  fldMixPos : ℚ := 0
  fldFadeDur : ℚ := 1
  fldFadePos : ℚ := 0
  fldStartPos : ℚ := 0
  fldFadeInDur : ℚ := 0
  fldVolume : Int := 100
  fldBroadcasts : Int := 0
  fldVoteCount : Int := 1
  fldNoRDS : Bool := false
  fldDoNotAutoAlter : Bool := false
  fldCat3 : Int := 0
  DEFAULT_GENRE_ID : Int := 18
deriving DecidableEq, Repr

/-- Outcome of one backend insert call: normal, committed but the
 identity fetch returned nothing (the method returns `None`), or an
 exception (the transaction is rolled back and the exception re-raised). -/
inductive DbFail where
  | ok
  | noId
  | raise (msg : Str)
deriving DecidableEq, Repr

/-- External collaborators and fault injection for the import service:
 the configured drive map and parser fallbacks, ID3 tag reads, and the
 possible failures of the backend calls.  Insert/update faults are
 indexed by how many calls of that kind have completed so far;
 `artistFetchFault` models a database error raised while looking up an
 artist by name. -/
structure Env where
  drive_map : List (Str × Str) := []
  defaults : JazlerDefaults := {}
  fallback_artist : Str := "Unknown".data
  fallback_title : Str := "Unknown".data
  id3Tags : Str → Option Id3Tags := fun _ => none
  artistFetchFault : Str → Option Str := fun _ => none
  songInsertFail : Nat → DbFail := fun _ => DbFail.ok
  artistInsertFail : Nat → DbFail := fun _ => DbFail.ok
  updateFault : Nat → Option Str := fun _ => none

/-- `ImportParser.parse`: filename parse always, ID3 tags win when they
 carry a usable artist or title. -/
def parse (env : Env) (filepath : Str) : ParsedMetadata :=
  let filename_meta := parse_filename env.fallback_artist env.fallback_title filepath
  match env.id3Tags filepath with
  | some tags =>
      if has_valid_id3 tags then
        merge_metadata env.fallback_artist env.fallback_title tags filename_meta
      else filename_meta
  | none => filename_meta

/-- Mutable state of `ImportService` and its collaborators: the two
 tables, the identity counters, the lazily built lookup caches, and the
 backend call counters that index the fault oracles. -/
structure ServiceState where
  db : List SongRow
  artists : List (Int × Str) := []
  genre_map : List (Int × Str) := []
  decade_map : List (Int × Str) := []
  nextSongId : Int := 1
  nextArtistId : Int := 1
  cache_paths : Option (List Str) := none
  cache_artist_titles : Option (List (Str × ExistEntry)) := none
  cache_genre_ids : Option (List (Str × Int)) := none
  cache_decade_ids : Option (List (Str × Int)) := none
  songInsertCount : Nat := 0
  artistInsertCount : Nat := 0
  updateCount : Nat := 0
deriving Repr

/-- Dictionary lookup in an association list whose most recent binding
 is first (caches are built by prepending, so this is Python dict
 lookup). -/
def alistFind {α : Type} (m : List (Str × α)) (k : Str) : Option α :=
  (m.find? fun kv => kv.1 = k).map fun kv => kv.2

/-- Python dict assignment `d[k] = v`: overwrite in place, else append. -/
def alistSet (m : List (Str × Val)) (k : Str) (v : Val) : List (Str × Val) :=
  match m with
  | [] => [(k, v)]
  | kv :: rest => if kv.1 = k then (k, v) :: rest else kv :: alistSet rest k v

/-- `SongService.get_all_paths`: the stored path of every record
 (a SQL `NULL` is modelled as the empty string). -/
def get_all_paths (db : List SongRow) : List Str := db.map fun r => r.fldFilename

/-- The classifier's path index: every inventory path, normalized. -/
def build_existing_paths (db : List SongRow) : List Str :=
  (get_all_paths db).map fun p => normalize_path (some p)

/-- The key of the artist+title index. -/
def artistTitleKey (artist title : Str) : Str :=
  normalize_for_comparison (some artist) ++ "|||".data ++ normalize_for_comparison (some title)

/-- The classifier's artist+title index: one entry per record, later
 records overwriting earlier ones with the same key (dict semantics;
 entries are prepended so `alistFind` sees the latest first). -/
def build_artist_titles (db : List SongRow) : List (Str × ExistEntry) :=
  db.foldl (fun m r =>
    (artistTitleKey r.fldArtistName r.fldTitle,
      { id := r.auid, path := r.fldFilename, full_record := r }) :: m) []

/-- Reverse taxonomy map (`name.lower().strip() -> id`, keeping only
 truthy names and positive ids). -/
def build_name_to_id (m : List (Int × Str)) : List (Str × Int) :=
  m.foldl (fun acc kv =>
    if kv.2 ≠ [] ∧ 0 < kv.1 then (pyStrip (lowerStr kv.2), kv.1) :: acc else acc) []

/-- `ImportService._load_existing_data`: build each cache if it has not
 been built yet. -/
def load_existing_data (st : ServiceState) : ServiceState :=
  let st1 := match st.cache_paths with
    | some _ => st
    | none => { st with cache_paths := some (build_existing_paths st.db) }
  let st2 := match st1.cache_artist_titles with
    | some _ => st1
    | none => { st1 with cache_artist_titles := some (build_artist_titles st1.db) }
  let st3 := match st2.cache_genre_ids with
    | some _ => st2
    | none => { st2 with cache_genre_ids := some (build_name_to_id st2.genre_map) }
  match st3.cache_decade_ids with
  | some _ => st3
  | none => { st3 with cache_decade_ids := some (build_name_to_id st3.decade_map) }

/-- `ArtistService.get_by_name` without faults: first record whose
 `fldName` equals the name exactly. -/
def artist_get_by_name (artists : List (Int × Str)) (name : Str) : Option Int :=
  (artists.find? fun a => a.2 = name).map fun a => a.1

/-- `ImportService._resolve_artist`, successful path. -/
def resolve_artist_ok (artists : List (Int × Str)) (c : ImportCandidate) : ImportCandidate :=
  match artist_get_by_name artists c.metadata.artist with
  | some aid => { c with artist_id := some aid, artist_is_new := false }
  | none => { c with artist_id := none, artist_is_new := true }

/-- `ImportService._resolve_artist`: the lookup hits the database and
 can raise. -/
def resolve_artist (env : Env) (artists : List (Int × Str)) (c : ImportCandidate) :
    Except Str ImportCandidate :=
  match env.artistFetchFault c.metadata.artist with
  | some msg => Except.error msg
  | none => Except.ok (resolve_artist_ok artists c)

/-- `ImportService._resolve_genres`: split the raw genre string on
 commas, strip/lower each non-blank part, match the first three against
 the reverse genre map, and fill the three slots with the matches,
 defaulting the first slot to `DEFAULT_GENRE_ID` and the rest to 0. -/
def resolve_genres (genre_name_to_id : List (Str × Int)) (default_genre_id : Int)
    (c : ImportCandidate) : ImportCandidate :=
  let genre_str := c.metadata.genre
  let raw_genres := (splitChar ',' genre_str).filterMap fun g =>
    if pyStrip g = [] then none else some (lowerStr (pyStrip g))
  let matched_ids := (raw_genres.take 3).filterMap fun g => alistFind genre_name_to_id g
  { c with genre_ids := [
      matched_ids.getD 0 default_genre_id,
      matched_ids.getD 1 0,
      matched_ids.getD 2 0] }

/-- `ImportService._resolve_decade`: years from 1900 map to the decade
 display string (for instance 1985 to the string 1980's), looked up
 case-insensitively in the reverse decade map. -/
def resolve_decade (decade_name_to_id : List (Str × Int)) (c : ImportCandidate) :
    ImportCandidate :=
  let year := c.metadata.year
  if year = 0 ∨ year < 1900 then { c with decade_id := 0 }
  else
    let decade_start := year.toNat / 10 * 10
    let decade_str := Nat.toDigits 10 decade_start ++ [Char.ofNat 39, 's']
    { c with decade_id := (alistFind decade_name_to_id (lowerStr decade_str)).getD 0 }

/-- Reverse drive mapping applied when writing a new path into the
 database (`app_config.drive_map`: first entry whose local prefix
 matches, case-insensitively, wins). -/
def reverse_map_path (dm : List (Str × Str)) (p : Str) : Str :=
  match dm.find? (fun kv => (lowerStr kv.2).isPrefixOf (lowerStr p)) with
  | some kv => kv.1 ++ p.drop kv.2.length
  | none => p

/-- `ImportService.get_insertion_data`: the full insertion payload, in
 source dictionary order. -/
def get_insertion_data (dm : List (Str × Str)) (defaults : JazlerDefaults)
    (c : ImportCandidate) : List (Str × Val) :=
  let artist_id : Val := match c.artist_id with
    | some a => Val.i a
    | none => if c.artist_is_new then Val.i (-1) else Val.null
  let final_filename := match c.existing_path with
    | some p => if p = [] then reverse_map_path dm c.file_path else p
    | none => reverse_map_path dm c.file_path
  [("fldArtistCode".data, artist_id),
   ("fldArtistName".data, Val.s c.metadata.artist),
   ("fldTitle".data, Val.s c.metadata.title),
   ("fldFilename".data, Val.s final_filename),
   ("fldDuration".data, Val.q c.metadata.duration),
   ("fldAlbum".data, Val.s c.metadata.album),
   ("fldYear".data, Val.i c.metadata.year),
   ("fldComposer".data, Val.s c.metadata.composer),
   ("fldLabel".data, Val.s c.metadata.publisher),
   ("fldCDKey".data, Val.s c.metadata.isrc),
   ("fldCat1a".data, Val.i (c.genre_ids.getD 0 0)),
   ("fldCat1b".data, Val.i (c.genre_ids.getD 1 0)),
   ("fldCat1c".data, Val.i (c.genre_ids.getD 2 0)),
   ("fldCat2".data, Val.i c.decade_id),
   ("fldCat3".data, Val.i defaults.fldCat3),
   ("fldEnabled".data, Val.b defaults.fldEnabled),
   ("fldEnabledAuto".data, Val.b defaults.fldEnabledAuto),
   ("fldVocalPresent".data, Val.b defaults.fldVocalPresent),
   ("fldPriority".data, Val.i defaults.fldPriority),
   ("fldIntroPos".data, Val.q defaults.fldIntroPos),
   ("fldMixPos".data, Val.q defaults.fldMixPos),
   ("fldFadeDur".data, Val.q defaults.fldFadeDur),
   ("fldFadePos".data, Val.q defaults.fldFadePos),
   ("fldStartPos".data, Val.q defaults.fldStartPos),
   ("fldFadeInDur".data, Val.q defaults.fldFadeInDur),
   ("fldVolume".data, Val.i defaults.fldVolume),
   ("fldBroadcasts".data, Val.i defaults.fldBroadcasts),
   ("fldVoteCount".data, Val.i defaults.fldVoteCount),
   ("fldNoRDS".data, Val.b defaults.fldNoRDS),
   ("fldDoNotAutoAlter".data, Val.b defaults.fldDoNotAutoAlter)]

/-- The field-by-field diff computed in the conflict branch of
 `_analyze_file`: payload entries (except the artist code) that differ
 from the existing record, with nearly equal floats skipped. -/
def insertionDiff (payload : List (Str × Val)) (row : SongRow) :
    List (Str × Val × Option Val) :=
  payload.filterMap fun kv =>
    if kv.1 = "fldArtistCode".data then none
    else
      let old := rowGet row kv.1
      match kv.2, old with
      | Val.q v, some (Val.q w) =>
          if |v - w| < 1/100 then none else some (kv.1, kv.2, old)
      | _, _ => if some kv.2 = old then none else some (kv.1, kv.2, old)

/-- `AccessBackend.fetch_one` on `snDatabase` by primary key. -/
def fetch_one (db : List SongRow) (pk : Int) : Option SongRow :=
  db.find? fun r => r.auid = pk

/-- `ImportService._analyze_file`: classify one parsed file as
 DUPLICATE (path already indexed), CONFLICT (artist+title key already
 indexed, existing id/path and comparison data attached), or NEW
 (artist, genre and decade linkage resolved).  The error monad carries
 an exception raised by the artist lookup on the NEW path; inside the
 conflict branch such an exception is caught and the full record
 snapshot falls back to the indexed one. -/
def analyze_file (env : Env) (st : ServiceState) (file_path : Str) :
    Except Str ImportCandidate :=
  let metadata := parse env file_path
  let c0 : ImportCandidate := { file_path := file_path, metadata := metadata }
  let norm_path := normalize_path (some file_path)
  if norm_path ∈ st.cache_paths.getD [] then
    Except.ok { c0 with status := ImportStatus.duplicate }
  else
    let key := artistTitleKey metadata.artist metadata.title
    match alistFind (st.cache_artist_titles.getD []) key with
    | some entry =>
      let c1 := { c0 with
        status := ImportStatus.conflict
        existing_song_id := some entry.id
        existing_path := some entry.path }
      Except.ok (match resolve_artist env st.artists c1, fetch_one st.db entry.id with
        | Except.error _, _ =>
          { c1 with existing_data := some entry.full_record }
        | Except.ok c2, none =>
          let c3 := resolve_decade (st.cache_decade_ids.getD [])
            (resolve_genres (st.cache_genre_ids.getD []) env.defaults.DEFAULT_GENRE_ID c2)
          { c3 with existing_data := some entry.full_record }
        | Except.ok c2, some full_existing =>
          let c3 := resolve_decade (st.cache_decade_ids.getD [])
            (resolve_genres (st.cache_genre_ids.getD []) env.defaults.DEFAULT_GENRE_ID c2)
          let payload := get_insertion_data env.drive_map env.defaults c3
          { c3 with
            existing_data := some full_existing
            existing_diff := insertionDiff payload full_existing })
    | none =>
      match resolve_artist env st.artists { c0 with status := ImportStatus.new } with
      | Except.error e => Except.error e
      | Except.ok c2 =>
        Except.ok (resolve_decade (st.cache_decade_ids.getD [])
          (resolve_genres (st.cache_genre_ids.getD []) env.defaults.DEFAULT_GENRE_ID c2))

/-- `ImportService.preview_import`: build the caches once, then analyze
 every path; an exception from one file's analysis becomes an error
 candidate rather than aborting the batch. -/
def preview_import (env : Env) (st : ServiceState) (file_paths : List Str) :
    ServiceState × List ImportCandidate :=
  let st1 := load_existing_data st
  (st1, file_paths.map fun p =>
    match analyze_file env st1 p with
    | Except.ok c => c
    | Except.error e =>
      { file_path := p
        metadata := { artist := "Error".data, title := e, confidence := 0 }
        status := ImportStatus.new })

/-- Append a freshly inserted `snDatabase` row built from the payload
 (the identity column takes the next id) and bump the call counter. -/
def insert_song (st : ServiceState) (fields : List (Str × Val)) : ServiceState :=
  { st with
    db := st.db ++ [applyFields { auid := st.nextSongId } fields]
    nextSongId := st.nextSongId + 1
    songInsertCount := st.songInsertCount + 1 }

/-- `AccessBackend.update` on `snDatabase`: set the listed fields on
 the row with the given primary key; the returned flag is the
 `rowcount > 0` check. -/
def backend_update_song (st : ServiceState) (pk : Int) (fields : List (Str × Val)) :
    ServiceState × Bool :=
  if fields = [] then (st, false)
  else
    ({ st with
       db := st.db.map fun r => if r.auid = pk then applyFields r fields else r
       updateCount := st.updateCount + 1 },
     st.db.any fun r => r.auid = pk)

/-- `ArtistService.create`: reuse an existing artist with the same
 name, else insert one; the name lookup can raise, and the insert can
 raise (the transaction is rolled back but the call keeps its place in
 the fault sequence) or come back without an id. -/
def artist_create (env : Env) (st : ServiceState) (name : Str) :
    ServiceState × Except Str (Option Int) :=
  match env.artistFetchFault name with
  | some msg => (st, Except.error msg)
  | none =>
    match artist_get_by_name st.artists name with
    | some aid => (st, Except.ok (some aid))
    | none =>
      match env.artistInsertFail st.artistInsertCount with
      | DbFail.raise msg =>
        ({ st with artistInsertCount := st.artistInsertCount + 1 }, Except.error msg)
      | DbFail.noId =>
        ({ st with
          artists := st.artists ++ [(st.nextArtistId, name)]
          nextArtistId := st.nextArtistId + 1
          artistInsertCount := st.artistInsertCount + 1 }, Except.ok none)
      | DbFail.ok =>
        ({ st with
          artists := st.artists ++ [(st.nextArtistId, name)]
          nextArtistId := st.nextArtistId + 1
          artistInsertCount := st.artistInsertCount + 1 }, Except.ok (some st.nextArtistId))

/-- A raised song insert still consumed its position in the fault
 sequence: bump the call counter without touching the data (the
 transaction was rolled back). -/
def bumpSongInsert (st : ServiceState) : ServiceState :=
  { st with songInsertCount := st.songInsertCount + 1 }

/-- A failed `ImportResult` with the given action label and message. -/
def failResult (file_path : Str) (action msg : Str) : ImportResult :=
  { file_path := file_path
    success := false
    action := action
    error := some msg }

/-- `ImportService._create_song`: resolve or create the artist (a
 failure there is an error result when the id is falsy, an exception
 when the lookup/insert raises), then insert the new record; insert
 exceptions are caught and become error results, and on success the
 normalized source path is added to the path index cache when that
 cache is loaded. -/
def create_song (env : Env) (st : ServiceState) (c : ImportCandidate) :
    ServiceState × Except Str ImportResult :=
  let needCreate := c.artist_id = none ∧ c.artist_is_new
  let step : ServiceState × Except Str (Option Int) :=
    if needCreate then artist_create env st c.metadata.artist
    else (st, Except.ok c.artist_id)
  match step with
  | (st1, Except.error e) => (st1, Except.error e)
  | (st1, Except.ok artist_id) =>
    if needCreate ∧ (artist_id = none ∨ artist_id = some 0) then
      (st1, Except.ok (failResult c.file_path "error".data "Failed to create artist".data))
    else
      let data0 := get_insertion_data env.drive_map env.defaults c
      let aval : Val := match artist_id with | some a => Val.i a | none => Val.null
      let data := alistSet data0 "fldArtistCode".data aval
      match env.songInsertFail st1.songInsertCount with
      | DbFail.raise msg =>
        (bumpSongInsert st1, Except.ok (failResult c.file_path "error".data msg))
      | DbFail.noId =>
        (insert_song st1 data,
          Except.ok (failResult c.file_path "error".data "Insert returned no ID".data))
      | DbFail.ok =>
        let new_id := st1.nextSongId
        let st2 := insert_song st1 data
        let st3 := match st2.cache_paths with
          | none => st2
          | some ps =>
            { st2 with cache_paths := some (ps ++ [normalize_path (some c.file_path)]) }
        (st3, Except.ok { file_path := c.file_path
                          success := true
                          song_id := some new_id
                          artist_id := artist_id
                          action := "created".data })

/-- `ImportService._merge_into_existing`: update only the existing
 record's filename column to the candidate's path; a falsy existing id
 is an error, an update exception is caught as an error result. -/
def merge_into_existing (env : Env) (st : ServiceState) (c : ImportCandidate) :
    ServiceState × ImportResult :=
  if c.existing_song_id = none ∨ c.existing_song_id = some 0 then
    (st, failResult c.file_path "error".data "No existing song ID for merge".data)
  else
    match c.existing_song_id with
    | none => (st, failResult c.file_path "error".data "No existing song ID for merge".data)
    | some sid =>
      match env.updateFault st.updateCount with
      | some msg =>
        ({ st with updateCount := st.updateCount + 1 },
         failResult c.file_path "error".data msg)
      | none =>
        let (st1, ok) := backend_update_song st sid
          [("fldFilename".data, Val.s c.file_path)]
        if ok then
          (st1, { file_path := c.file_path
                  success := true
                  song_id := some sid
                  action := "merged".data })
        else (st1, failResult c.file_path "error".data "Merge update failed".data)

/-- `ImportService._import_candidate`: dispatch on status and, for
 conflicts, on the user's decision (an unset or falsy decision defaults
 to skip; any decision other than skip and merge falls through to the
 create path, as the source only checks those two strings). -/
def import_candidate (env : Env) (st : ServiceState) (c : ImportCandidate) :
    ServiceState × Except Str ImportResult :=
  if c.status = ImportStatus.duplicate then
    (st, Except.ok (failResult c.file_path "skipped".data "Duplicate path exists".data))
  else
    let viaCreate : ServiceState × Except Str ImportResult := create_song env st c
    if c.status = ImportStatus.conflict then
      let decision := match c.user_decision with
        | none => "skip".data
        | some d => if d = [] then "skip".data else d
      if decision = "skip".data then
        (st, Except.ok (failResult c.file_path "skipped".data
          "Conflict - user chose to skip".data))
      else if decision = "merge".data then
        let (st1, r) := merge_into_existing env st c
        (st1, Except.ok r)
      else viaCreate
    else viaCreate

/-- One iteration of the `execute_import` loop: run the candidate,
 append its result, and count it in exactly one summary bucket; an
 exception becomes an error result. -/
def execute_step (env : Env) (acc : ServiceState × ImportSummary) (c : ImportCandidate) :
    ServiceState × ImportSummary :=
  let (st0, summary) := acc
  let (st1, res) := import_candidate env st0 c
  match res with
  | Except.ok result =>
    let s1 := { summary with results := summary.results ++ [result] }
    if result.success then
      (st1, { s1 with
        successful := s1.successful + 1
        new_artists_created := s1.new_artists_created +
          (if c.artist_is_new ∧ result.action = "created".data then 1 else 0)
        conflicts_resolved := s1.conflicts_resolved +
          (if c.status = ImportStatus.conflict then 1 else 0) })
    else if result.action = "skipped".data then
      (st1, { s1 with skipped := s1.skipped + 1 })
    else (st1, { s1 with errors := s1.errors + 1 })
  | Except.error e =>
    (st1, { summary with
      errors := summary.errors + 1
      results := summary.results ++
        [failResult c.file_path "error".data e] })

/-- `ImportService.execute_import`: process every candidate in order;
 a single candidate's failure does not abort the rest of the batch. -/
def execute_import (env : Env) (st : ServiceState) (candidates : List ImportCandidate) :
    ServiceState × ImportSummary :=
  candidates.foldl (execute_step env) (st, { total_files := candidates.length })

/-- External state seen by the audit reconciler: the media service's
 drive map (keys lowercased at construction), physical existence, and
 the virtual snapshot (paths lowercased at load time). -/
structure AuditEnv where
  drive_map : List (Str × Str) := []
  fsExists : Str → Bool := fun _ => false
  vfsPresent : Bool := false
  vfsActive : Bool := false
  vfsFiles : List Str := []

/-- `MediaService.resolve_path`: first drive mapping whose (lowercase)
 remote prefix matches the lowercased stored path wins. -/
def resolve_path (dm : List (Str × Str)) (db_path : Str) : Str :=
  if db_path = [] then []
  else
    match dm.find? (fun kv => kv.1.isPrefixOf (lowerStr db_path)) with
    | some kv => kv.2 ++ db_path.drop kv.1.length
    | none => db_path

/-- `VfsService.exists`: membership of the lowercased path in the
 snapshot set. -/
def vfs_exists (files : List Str) (path : Str) : Bool :=
  if path = [] then false else lowerStr path ∈ files

/-- The `vfs_status` values of `MediaService.get_file_info`. -/
inductive VfsStatus where
  | live
  | missing
  | virtual
deriving DecidableEq, Repr

/-- The part of the `get_file_info` dictionary the audit uses
 (`exists` is named `existsPhys` as `exists` is reserved). -/
structure FileInfo where
  db_path : Str
  resolved_path : Str
  existsPhys : Bool
  vfs_status : VfsStatus
deriving DecidableEq, Repr

/-- `MediaService.get_file_info`: resolve the drive mapping, test
 physical existence, and fall back to the virtual snapshot (under the
 stored or the resolved path) when the file is absent. -/
def get_file_info (env : AuditEnv) (db_path : Str) : FileInfo :=
  let resolved := resolve_path env.drive_map db_path
  let ex := if resolved = [] then false else env.fsExists resolved
  { db_path := db_path
    resolved_path := resolved
    existsPhys := ex
    vfs_status :=
      if ex then VfsStatus.live
      else if env.vfsPresent ∧
          (vfs_exists env.vfsFiles db_path ∨ vfs_exists env.vfsFiles resolved) then
        VfsStatus.virtual
      else VfsStatus.missing }

/-- `AuditService._normalize_string`: lowercase and strip every
 character that is not a lowercase letter or digit. -/
def audit_normalize_string (s : Str) : Str :=
  if s = [] then []
  else (lowerStr s).filter fun c =>
    (97 ≤ c.toNat && c.toNat ≤ 122) || (48 ≤ c.toNat && c.toNat ≤ 57)

/-- The audit's filename map lookup: all snapshot paths whose
 normalized bare filename equals the key, in snapshot order (the
 defaultdict built in one pass over `vfs.files` groups by key
 preserving order; the map stays empty when no active snapshot is
 loaded). -/
def audit_name_map (env : AuditEnv) (key : Str) : List Str :=
  if env.vfsPresent ∧ env.vfsActive then
    env.vfsFiles.filter fun f => audit_normalize_string (basename f) = key
  else []

/-- An entry of the audit's moved/missing lists. -/
structure AuditEntry where
  id : Int
  artist : Str
  title : Str
  db_path : Str
  resolved_path : Str
  new_paths : List Str := []
deriving DecidableEq, Repr

/-- The dictionary returned by `AuditService.run_audit`. -/
structure AuditReport where
  total : Nat
  found : Nat := 0
  virtual : Nat := 0
  moved : List AuditEntry := []
  missing : List AuditEntry := []
deriving DecidableEq, Repr

/-- `AuditService.run_audit`: classify every inventory record with a
 truthy stored path as found (resolved path physically present),
 virtual (present in the snapshot), moved (its normalized filename
 appears somewhere in the snapshot) or missing; records with a falsy
 stored path are skipped entirely. -/
def run_audit (env : AuditEnv) (songs : List SongRow) : AuditReport :=
  songs.foldl (fun results song =>
    let db_path := song.fldFilename
    if db_path = [] then results
    else
      let info := get_file_info env db_path
      if info.existsPhys then { results with found := results.found + 1 }
      else if info.vfs_status = VfsStatus.virtual then
        { results with virtual := results.virtual + 1 }
      else
        let norm_name := audit_normalize_string (basename db_path)
        let potential_paths := audit_name_map env norm_name
        let song_data : AuditEntry := { id := song.auid
                                        artist := song.fldArtistName
                                        title := song.fldTitle
                                        db_path := db_path
                                        resolved_path := info.resolved_path }
        if potential_paths ≠ [] then
          { results with moved := results.moved ++
            [{ song_data with new_paths := potential_paths }] }
        else { results with missing := results.missing ++ [song_data] })
    { total := songs.length }

/-- The four audit outcomes. -/
inductive AuditClass where
  | found
  | virtual
  | moved
  | missing
deriving DecidableEq, Repr

/-- The per-record decision of `run_audit` in priority order (used to
 relate the fold to a pointwise classification). -/
def classify_record (env : AuditEnv) (song : SongRow) : AuditClass :=
  let info := get_file_info env song.fldFilename
  if info.existsPhys then AuditClass.found
  else if info.vfs_status = VfsStatus.virtual then AuditClass.virtual
  else if audit_name_map env (audit_normalize_string (basename song.fldFilename)) ≠ [] then
    AuditClass.moved
  else AuditClass.missing

/-- The directory part of a path (`os.path.dirname` on Windows,
 without the trailing separator).  Used only to state the claim's
 condition that a moved file is seen under a DIFFERENT directory; the
 source never computes this. -/
def dirnameOf (s : Str) : Str :=
  ((s.reverse.dropWhile fun c => c ≠ '/' && c ≠ '\\').drop 1).reverse

/-- The first character, if any, is not whitespace. -/
def headNotSpace (s : Str) : Prop := ∀ c, s.head? = some c → isSpace c = false

/-- The last character, if any, is not whitespace. -/
def lastNotSpace (s : Str) : Prop := ∀ c, s.getLast? = some c → isSpace c = false

/-! Concrete scenarios used by closed theorems and witnesses. -/

/-- A ready-to-create candidate whose artist already exists. -/
def fixNewCand (p a t : Str) : ImportCandidate :=
  { file_path := p
    metadata := { artist := a, title := t }
    status := ImportStatus.new
    artist_id := some 7
    artist_is_new := false }

/-- Fault model where the third song insert raises. -/
def fixEnvC6 : Env :=
  { songInsertFail := fun n => if n = 2 then DbFail.raise "disk full".data else DbFail.ok }

/-- Empty database state. -/
def fixStC6 : ServiceState := { db := [], nextSongId := 100 }

/-- A batch of five NEW candidates. -/
def fixCandsC6 : List ImportCandidate :=
  [fixNewCand "p1".data "a1".data "t1".data,
   fixNewCand "p2".data "a2".data "t2".data,
   fixNewCand "p3".data "a3".data "t3".data,
   fixNewCand "p4".data "a4".data "t4".data,
   fixNewCand "p5".data "a5".data "t5".data]

/-- An inventory row used by the merge and classification scenarios. -/
def fixRow9 : SongRow :=
  { auid := 9
    fldArtistName := "A".data
    fldTitle := "T".data
    fldFilename := "B:\\old.mp3".data
    fldYear := 1999 }

/-- Service state holding only that row, with all caches built. -/
def fixStMerge : ServiceState := load_existing_data { db := [fixRow9] }

/-- A CONFLICT candidate resolved by the user as merge. -/
def fixMergeCand : ImportCandidate :=
  { file_path := "C:\\new.mp3".data
    metadata := { artist := "A".data, title := "T".data }
    status := ImportStatus.conflict
    existing_song_id := some 9
    existing_path := some "B:\\old.mp3".data
    user_decision := some "merge".data }

/-- Empty database with the path cache loaded. -/
def fixStC1 : ServiceState := load_existing_data { db := [] }

/-- A NEW candidate imported into the empty database. -/
def fixCandC1 : ImportCandidate := fixNewCand "C:/m/x.mp3".data "a".data "t".data

/-- Audit environment: an active snapshot holding a single file. -/
def fixAuditEnv : AuditEnv :=
  { vfsPresent := true
    vfsActive := true
    vfsFiles := ["c:\\a\\bsong.mp3".data] }

/-- An inventory record with an empty stored path. -/
def fixSongEmpty : SongRow := { auid := 1 }

/-- A record absent from disk and snapshot whose normalized filename
 matches the snapshot file in the same directory. -/
def fixSongSameDir : SongRow :=
  { auid := 2, fldFilename := "C:\\a\\b song.mp3".data }

/-- The genre map of the claim's example. -/
def fixGenreMap : List (Str × Int) :=
  [("rock".data, 1), ("pop".data, 2), ("dance".data, 3)]

/-- A candidate carrying only a raw genre string. -/
def fixGenreCand (g : Str) : ImportCandidate :=
  { file_path := "x".data
    metadata := { artist := "a".data, title := "t".data, genre := g } }

/-- Preview environment: ID3 tags name an artist whose database lookup
 raises. -/
def fixEnvPrev : Env :=
  { artistFetchFault := fun n =>
      if n = "BadArtist".data then some "db down".data else none
    id3Tags := fun p =>
      if p = "f2.mp3".data then
        some { artist := "BadArtist".data, title := "T2".data }
      else none }

/-! Character-level lemmas. -/

theorem toNat_ofNat_valid (n : Nat) (h : n < 55296) : (Char.ofNat n).toNat = n := by
  have hv : n.isValidChar := Or.inl h
  simp [Char.ofNat, dif_pos hv, Char.ofNatAux, Char.toNat, UInt32.toNat]

theorem char_eq_of_toNat {a b : Char} (h : a.toNat = b.toNat) : a = b :=
  Char.ext (UInt32.ext h)

theorem lowerChar_toNat (c : Char) :
    (lowerChar c).toNat =
      if 65 ≤ c.toNat ∧ c.toNat ≤ 90 then c.toNat + 32 else c.toNat := by
  unfold lowerChar
  split
  · next h => exact toNat_ofNat_valid _ (by omega)
  · rfl

theorem lowerChar_idem (c : Char) : lowerChar (lowerChar c) = lowerChar c := by
  apply char_eq_of_toNat
  simp only [lowerChar_toNat]
  split_ifs <;> omega

theorem isSpace_lowerChar (c : Char) : isSpace (lowerChar c) = isSpace c := by
  rw [Bool.eq_iff_iff]
  simp only [isSpace, lowerChar_toNat, Bool.or_eq_true, decide_eq_true_eq]
  split_ifs <;> omega

theorem lowerChar_space : lowerChar ' ' = ' ' := by decide

theorem lowerChar_backslash : lowerChar '\\' = '\\' := by decide

/-! Lemmas about `lowerStr` and `pyStrip`. -/

theorem lowerStr_lowerStr (s : Str) : lowerStr (lowerStr s) = lowerStr s := by
  simp only [lowerStr, List.map_map]
  exact List.map_congr_left fun a _ => lowerChar_idem a

theorem lowerStr_eq_self {s : Str} (h : ∀ c ∈ s, lowerChar c = c) : lowerStr s = s := by
  unfold lowerStr
  exact (List.map_congr_left h).trans (List.map_id s)

theorem lowerChar_of_mem_lowerStr {c : Char} {s : Str} (h : c ∈ lowerStr s) :
    lowerChar c = c := by
  obtain ⟨a, _, rfl⟩ := List.mem_map.mp h
  exact lowerChar_idem a

theorem reverse_lowerStr (s : Str) : (lowerStr s).reverse = lowerStr s.reverse := by
  simp [lowerStr, List.map_reverse]

theorem dropWhile_lowerStr (s : Str) :
    (lowerStr s).dropWhile isSpace = lowerStr (s.dropWhile isSpace) := by
  unfold lowerStr
  rw [List.dropWhile_map]
  have hp : (isSpace ∘ lowerChar) = isSpace := funext isSpace_lowerChar
  rw [hp]

theorem pyStrip_lowerStr (s : Str) : pyStrip (lowerStr s) = lowerStr (pyStrip s) := by
  simp only [pyStrip, dropWhile_lowerStr, reverse_lowerStr]

theorem head_dropWhile_not {s : Str} {c : Char}
    (h : (s.dropWhile isSpace).head? = some c) : isSpace c = false := by
  induction s with
  | nil => simp [List.dropWhile] at h
  | cons a as ih =>
    rw [List.dropWhile_cons] at h
    split at h
    · exact ih h
    · next hn =>
      simp only [List.head?_cons, Option.some.injEq] at h
      subst h
      exact Bool.eq_false_iff.mpr hn

theorem dropWhile_eq_self_of_head {s : Str} (h : headNotSpace s) :
    s.dropWhile isSpace = s := by
  cases s with
  | nil => rfl
  | cons a as =>
    have ha := h a rfl
    rw [List.dropWhile_cons, if_neg (by simp [ha])]

theorem headNotSpace_reverse_of_last {s : Str} (h : lastNotSpace s) :
    headNotSpace s.reverse := by
  intro c hc
  rw [List.head?_reverse] at hc
  exact h c hc

theorem pyStrip_eq_self {s : Str} (h1 : headNotSpace s) (h2 : lastNotSpace s) :
    pyStrip s = s := by
  unfold pyStrip
  rw [dropWhile_eq_self_of_head h1, dropWhile_eq_self_of_head (headNotSpace_reverse_of_last h2),
    List.reverse_reverse]

theorem getLast?_of_suffix {l₁ l₂ : Str} (h : l₁ <:+ l₂) (hne : l₁ ≠ []) :
    l₂.getLast? = l₁.getLast? := by
  obtain ⟨t, rfl⟩ := h
  rw [List.getLast?_append]
  cases hl : l₁.getLast? with
  | some c => rfl
  | none => exact absurd (List.getLast?_eq_none_iff.mp hl) hne

theorem pyStrip_headNotSpace (s : Str) : headNotSpace (pyStrip s) := by
  intro c hc
  unfold pyStrip at hc
  rw [List.head?_reverse] at hc
  have hv : ((s.dropWhile isSpace).reverse.dropWhile isSpace) ≠ [] := by
    intro h0
    rw [h0] at hc
    simp at hc
  have hsuf := List.dropWhile_suffix (l := (s.dropWhile isSpace).reverse) isSpace
  have hl := getLast?_of_suffix hsuf hv
  rw [hc] at hl
  rw [List.getLast?_reverse] at hl
  exact head_dropWhile_not hl

theorem pyStrip_lastNotSpace (s : Str) : lastNotSpace (pyStrip s) := by
  intro c hc
  unfold pyStrip at hc
  rw [List.getLast?_reverse] at hc
  exact head_dropWhile_not hc

theorem pyStrip_idem (s : Str) : pyStrip (pyStrip s) = pyStrip s :=
  pyStrip_eq_self (pyStrip_headNotSpace s) (pyStrip_lastNotSpace s)

theorem mem_pyStrip {c : Char} {s : Str} (h : c ∈ pyStrip s) : c ∈ s := by
  unfold pyStrip at h
  rw [List.mem_reverse] at h
  have h1 := (List.dropWhile_sublist (l := (s.dropWhile isSpace).reverse) isSpace).subset h
  rw [List.mem_reverse] at h1
  exact (List.dropWhile_sublist isSpace).subset h1

/-! Lemmas about `collapseWS`. -/

theorem collapseWS_nil : collapseWS [] = [] := rfl

theorem collapseWS_single (c : Char) :
    collapseWS [c] = if isSpace c then [' '] else [c] := rfl

theorem collapseWS_cons2 (c d : Char) (rest : Str) :
    collapseWS (c :: d :: rest) =
      if isSpace c && isSpace d then collapseWS (d :: rest)
      else (if isSpace c then ' ' else c) :: collapseWS (d :: rest) := rfl

theorem collapseWS_ne_nil {s : Str} (h : s ≠ []) : collapseWS s ≠ [] := by
  induction s with
  | nil => exact absurd rfl h
  | cons c cs ih =>
    cases cs with
    | nil => rw [collapseWS_single]; split <;> simp
    | cons d rest =>
      rw [collapseWS_cons2]
      split
      · exact ih (by simp)
      · simp

theorem head?_collapseWS {s : Str} {c : Char} (h : s.head? = some c)
    (hc : isSpace c = false) : (collapseWS s).head? = some c := by
  cases s with
  | nil => simp at h
  | cons a as =>
    simp only [List.head?_cons, Option.some.injEq] at h
    subst h
    cases as with
    | nil =>
      rw [collapseWS_single, if_neg (by simp [hc])]
      rfl
    | cons d rest =>
      rw [collapseWS_cons2, if_neg (by simp [hc]), if_neg (by simp [hc])]
      rfl

theorem getLast?_collapseWS {s : Str} {c : Char} (h : s.getLast? = some c)
    (hc : isSpace c = false) : (collapseWS s).getLast? = some c := by
  induction s with
  | nil => simp at h
  | cons a as ih =>
    cases as with
    | nil =>
      simp only [List.getLast?_singleton, Option.some.injEq] at h
      subst h
      rw [collapseWS_single, if_neg (by simp [hc])]
      rfl
    | cons d rest =>
      rw [List.getLast?_cons_cons] at h
      rw [collapseWS_cons2]
      split
      · exact ih h
      · have hne : collapseWS (d :: rest) ≠ [] := collapseWS_ne_nil (by simp)
        cases hcc : collapseWS (d :: rest) with
        | nil => exact absurd hcc hne
        | cons y ys =>
          rw [List.getLast?_cons_cons, ← hcc]
          exact ih h

theorem mem_collapseWS {c : Char} {s : Str} (h : c ∈ collapseWS s) :
    c ∈ s ∨ c = ' ' := by
  induction s with
  | nil => simp [collapseWS_nil] at h
  | cons a as ih =>
    cases as with
    | nil =>
      rw [collapseWS_single] at h
      split at h
      · right; simpa using h
      · left; simpa using h
    | cons d rest =>
      rw [collapseWS_cons2] at h
      split at h
      · rcases ih h with h1 | h2
        · exact Or.inl (List.mem_cons_of_mem _ h1)
        · exact Or.inr h2
      · rcases List.mem_cons.mp h with h1 | h2
        · by_cases ha : isSpace a = true
          · right; simpa [ha] using h1
          · left; simp only [Bool.not_eq_true] at ha; simp [h1, ha]
        · rcases ih h2 with h3 | h4
          · exact Or.inl (List.mem_cons_of_mem _ h3)
          · exact Or.inr h4

theorem collapseWS_idem (s : Str) : collapseWS (collapseWS s) = collapseWS s := by
  induction s with
  | nil => rfl
  | cons a as ih =>
    cases as with
    | nil =>
      rw [collapseWS_single]
      split
      · decide
      · next hn => rw [collapseWS_single, if_neg hn]
    | cons d rest =>
      rw [collapseWS_cons2]
      split
      · exact ih
      · next hn =>
        have hne : collapseWS (d :: rest) ≠ [] := collapseWS_ne_nil (by simp)
        cases hcc : collapseWS (d :: rest) with
        | nil => exact absurd hcc hne
        | cons y ys =>
          rw [collapseWS_cons2]
          by_cases ha : isSpace a = true
          · have hd : isSpace d = false := by
              cases hdc : isSpace d
              · rfl
              · exact absurd (by rw [ha, hdc]; rfl) hn
            have hy : y = d := by
              have hh := head?_collapseWS (s := d :: rest) (c := d) rfl hd
              rw [hcc] at hh
              simp only [List.head?_cons, Option.some.injEq] at hh
              exact hh
            subst hy
            rw [if_pos ha]
            have hcond : (isSpace ' ' && isSpace y) = false := by
              rw [hd, Bool.and_false]
            rw [if_neg (by simp [hcond]), if_pos (by decide)]
            rw [← hcc, ih]
          · have ha2 : isSpace a = false := by
              cases hac : isSpace a
              · rfl
              · exact absurd hac ha
            rw [if_neg (by simp [ha2]), if_neg (by simp [ha2]), if_neg (by simp [ha2]), ← hcc, ih]

theorem headNotSpace_collapseWS {s : Str} (h : headNotSpace s) :
    headNotSpace (collapseWS s) := by
  intro c hc
  cases s with
  | nil => simp [collapseWS_nil] at hc
  | cons a as =>
    have ha := h a rfl
    have := head?_collapseWS (s := a :: as) (c := a) rfl ha
    rw [this] at hc
    cases hc
    exact ha

theorem lastNotSpace_collapseWS {s : Str} (h : lastNotSpace s) :
    lastNotSpace (collapseWS s) := by
  intro c hc
  cases s with
  | nil => simp [collapseWS_nil] at hc
  | cons a as =>
    obtain ⟨b, hb⟩ : ∃ b, (a :: as).getLast? = some b := by
      cases hg : (a :: as).getLast? with
      | none => exact absurd (List.getLast?_eq_none_iff.mp hg) (by simp)
      | some b => exact ⟨b, rfl⟩
    have hbs := h b hb
    have := getLast?_collapseWS hb hbs
    rw [this] at hc
    cases hc
    exact hbs

/-! Edge and membership lemmas used for normalization fixed points. -/

theorem headNotSpace_lowerStr {s : Str} (h : headNotSpace s) :
    headNotSpace (lowerStr s) := by
  intro c hc
  unfold lowerStr at hc
  rw [List.head?_map] at hc
  obtain ⟨a, ha, rfl⟩ := Option.map_eq_some'.mp hc
  rw [isSpace_lowerChar]
  exact h a ha

theorem getLast?_lowerStr (s : Str) :
    (lowerStr s).getLast? = s.getLast?.map lowerChar := by
  rw [← List.head?_reverse, reverse_lowerStr, lowerStr, List.head?_map, List.head?_reverse]

theorem lastNotSpace_lowerStr {s : Str} (h : lastNotSpace s) :
    lastNotSpace (lowerStr s) := by
  intro c hc
  rw [getLast?_lowerStr] at hc
  obtain ⟨a, ha, rfl⟩ := Option.map_eq_some'.mp hc
  rw [isSpace_lowerChar]
  exact h a ha

theorem mem_replSlash {c : Char} {s : Str} (h : c ∈ replSlash s) :
    ∃ a ∈ s, c = if a = '/' then '\\' else a := by
  obtain ⟨a, ha, rfl⟩ := List.mem_map.mp h
  exact ⟨a, ha, rfl⟩

theorem replSlash_no_slash {c : Char} {s : Str} (h : c ∈ replSlash s) : c ≠ '/' := by
  obtain ⟨a, _, rfl⟩ := mem_replSlash h
  split
  · decide
  · next hn => exact hn

theorem replSlash_eq_self {s : Str} (h : ∀ c ∈ s, c ≠ '/') : replSlash s = s := by
  unfold replSlash
  have : ∀ c ∈ s, (if c = '/' then '\\' else c) = c := fun c hc => if_neg (h c hc)
  exact (List.map_congr_left this).trans (List.map_id s)

theorem lowerChar_of_mem_replSlash_lowerStr {c : Char} {p : Str}
    (h : c ∈ replSlash (lowerStr p)) : lowerChar c = c := by
  obtain ⟨a, ha, rfl⟩ := mem_replSlash h
  split
  · exact lowerChar_backslash
  · exact lowerChar_of_mem_lowerStr ha

/-- The composed normalizer applied to a non-falsy string. -/
theorem normalize_for_comparison_eval {t : Str} (h : t ≠ []) :
    normalize_for_comparison (some t) = collapseWS (lowerStr (pyStrip t)) := by
  simp [normalize_for_comparison, h]

theorem normalize_path_eval {p : Str} (h : p ≠ []) :
    normalize_path (some p) = pyStrip (replSlash (lowerStr p)) := by
  simp [normalize_path, h]

theorem normalize_for_comparison_fix (s : Str) :
    normalize_for_comparison (some (normalize_for_comparison (some s))) =
      normalize_for_comparison (some s) := by
  by_cases hs : s = []
  · subst hs; rfl
  · rw [normalize_for_comparison_eval hs]
    by_cases hy : collapseWS (lowerStr (pyStrip s)) = []
    · rw [hy]; rfl
    · rw [normalize_for_comparison_eval hy]
      have hx_head : headNotSpace (lowerStr (pyStrip s)) :=
        headNotSpace_lowerStr (pyStrip_headNotSpace s)
      have hx_last : lastNotSpace (lowerStr (pyStrip s)) :=
        lastNotSpace_lowerStr (pyStrip_lastNotSpace s)
      have h1 : pyStrip (collapseWS (lowerStr (pyStrip s))) =
          collapseWS (lowerStr (pyStrip s)) :=
        pyStrip_eq_self (headNotSpace_collapseWS hx_head) (lastNotSpace_collapseWS hx_last)
      have h2 : lowerStr (collapseWS (lowerStr (pyStrip s))) =
          collapseWS (lowerStr (pyStrip s)) := by
        apply lowerStr_eq_self
        intro c hc
        rcases mem_collapseWS hc with h3 | h4
        · exact lowerChar_of_mem_lowerStr h3
        · subst h4; exact lowerChar_space
      rw [h1, h2, collapseWS_idem]

theorem normalize_for_comparison_lower (s : Str) :
    normalize_for_comparison (some s) = normalize_for_comparison (some (lowerStr s)) := by
  by_cases hs : s = []
  · subst hs; rfl
  · have hls : lowerStr s ≠ [] := by
      intro h0
      exact hs (List.map_eq_nil_iff.mp h0)
    rw [normalize_for_comparison_eval hs, normalize_for_comparison_eval hls,
      pyStrip_lowerStr, lowerStr_lowerStr]

theorem normalize_path_fix (s : Str) :
    normalize_path (some (normalize_path (some s))) = normalize_path (some s) := by
  by_cases hs : s = []
  · subst hs; rfl
  · rw [normalize_path_eval hs]
    by_cases hy : pyStrip (replSlash (lowerStr s)) = []
    · rw [hy]; rfl
    · rw [normalize_path_eval hy]
      have h2 : lowerStr (pyStrip (replSlash (lowerStr s))) =
          pyStrip (replSlash (lowerStr s)) := by
        apply lowerStr_eq_self
        intro c hc
        exact lowerChar_of_mem_replSlash_lowerStr (mem_pyStrip hc)
      have h3 : replSlash (pyStrip (replSlash (lowerStr s))) =
          pyStrip (replSlash (lowerStr s)) := by
        apply replSlash_eq_self
        intro c hc
        exact replSlash_no_slash (mem_pyStrip hc)
      rw [h2, h3, pyStrip_idem]

theorem normalize_path_lower (s : Str) :
    normalize_path (some s) = normalize_path (some (lowerStr s)) := by
  by_cases hs : s = []
  · subst hs; rfl
  · have hls : lowerStr s ≠ [] := by
      intro h0
      exact hs (List.map_eq_nil_iff.mp h0)
    rw [normalize_path_eval hs, normalize_path_eval hls, lowerStr_lowerStr]

/-- C8: for every input, including the empty string and `None`,
 `normalize_for_comparison` and `normalize_path` are idempotent
 (normalizing a normalized value changes nothing) and case-insensitive
 (an input and its lowercased form normalize identically), and both map
 the falsy inputs `None` and the empty string to the empty string. -/
theorem normalize_idempotent_case_insensitive (s : Str) :
    normalize_for_comparison (some (normalize_for_comparison (some s))) =
        normalize_for_comparison (some s) ∧
      normalize_for_comparison (some s) = normalize_for_comparison (some (lowerStr s)) ∧
      normalize_path (some (normalize_path (some s))) = normalize_path (some s) ∧
      normalize_path (some s) = normalize_path (some (lowerStr s)) ∧
      normalize_for_comparison none = [] ∧
      normalize_for_comparison (some []) = [] ∧
      normalize_path none = [] ∧
      normalize_path (some []) = [] :=
  ⟨normalize_for_comparison_fix s, normalize_for_comparison_lower s,
    normalize_path_fix s, normalize_path_lower s, rfl, rfl, rfl, rfl⟩

/-! C3: genre linkage resolution. -/

/-- C3: genre resolution splits the raw genre string on commas, trims
 and lowercases each part, matches the first three against the
 genre-name map, and defaults unfilled slots to the unclassified id
 (first slot) and 0 (rest): the example map sends the string
 Rock, Pop, Dance to ids 1, 2, 3; an empty genre string or one whose
 parts all miss the map yields the unclassified id and zeros. -/
theorem resolve_genres_spec :
    (∀ (m : List (Str × Int)) (d : Int) (c : ImportCandidate),
        c.metadata.genre = [] → (resolve_genres m d c).genre_ids = [d, 0, 0]) ∧
    (∀ (m : List (Str × Int)) (d : Int) (c : ImportCandidate),
        (∀ part ∈ splitChar ',' c.metadata.genre,
          alistFind m (lowerStr (pyStrip part)) = none) →
        (resolve_genres m d c).genre_ids = [d, 0, 0]) ∧
    (resolve_genres fixGenreMap 18 (fixGenreCand "Rock, Pop, Dance".data)).genre_ids
        = [1, 2, 3] ∧
    (resolve_genres fixGenreMap 18 (fixGenreCand "".data)).genre_ids = [18, 0, 0] := by
  refine ⟨?_, ?_, by decide, by decide⟩
  · intro m d c h
    simp only [resolve_genres, h]
    rfl
  · intro m d c h
    have hmatched : ((((splitChar ',' c.metadata.genre).filterMap fun g =>
        if pyStrip g = [] then none else some (lowerStr (pyStrip g))).take 3).filterMap
          fun g => alistFind m g) = [] := by
      rw [List.filterMap_eq_nil]
      intro a ha
      have ha2 := List.mem_of_mem_take ha
      obtain ⟨part, hpart, hsome⟩ := List.mem_filterMap.mp ha2
      by_cases hp : pyStrip part = []
      · simp [hp] at hsome
      · simp only [hp, if_false, Option.some.injEq] at hsome
        subst hsome
        exact h part hpart
    simp only [resolve_genres, hmatched]
    rfl

/-- C3 witness: the fully unmatched clause applied to the genre string
 Xyz against the example map. -/
theorem resolve_genres_spec_witness :
    (resolve_genres fixGenreMap 18 (fixGenreCand "Xyz".data)).genre_ids = [18, 0, 0] :=
  resolve_genres_spec.2.1 fixGenreMap 18 (fixGenreCand "Xyz".data) (by decide)

end Jazler
